import Mathlib

/-!
Verification of the EEW performance-analysis core (eews_analyzer.py /
ana_forplot.py): record parsing, planar geodetic distance, the
inland/offshore boundary heuristic, per-record error metrics and the
statistics aggregation.  Numeric fields are modelled as exact rationals
(`ℚ`); square roots live in `ℝ`; Python `None`/`np.nan` sentinels are
modelled as `Option.none`; a raised Python exception is modelled as
`Except.error`.
-/

deriving instance DecidableEq for Except

set_option maxRecDepth 8192

namespace EEW

/-- Squared planar distance (km²) from `eews_analyzer.py::calculate_distance`
(lines 157-177) and identically `ana_forplot.py::delaz` (lines 14-23):
average latitude, two cubic scale polynomials `a`, `b`, offsets
`dx = a*dlon*60`, `dy = b*dlat*60`; the source returns `sqrt(dx²+dy²)`,
this definition is the radicand `dx²+dy²`. -/
def distSq (lat1 lon1 lat2 lon2 : ℚ) : ℚ :=
  let avlat := 0.5 * (lat1 + lat2)
  let a := 1.840708 + avlat * (0.0015269 + avlat * (-0.00034 + avlat * 1.02337e-6))
  let b := 1.843404 + avlat * (-6.93799e-5 + avlat * (8.79993e-6 + avlat * (-6.47527e-8)))
  let dlat := lat2 - lat1
  let dlon := lon2 - lon1
  let dx := a * dlon * 60.0
  let dy := b * dlat * 60.0
  dx * dx + dy * dy

/-- Embeds `EEWSAnalyzer.calculate_distance` (eews_analyzer.py:157-177):
`sqrt(dx*dx + dy*dy)` in km. -/
noncomputable def calculate_distance (lat1 lon1 lat2 lon2 : ℚ) : ℝ :=
  Real.sqrt (distSq lat1 lon1 lat2 lon2)

/-- Embeds `ana_forplot.py::delaz` (lines 14-23); the formula is
character-for-character the same as `calculate_distance`. -/
noncomputable def delaz (elat elon slat slon : ℚ) : ℝ :=
  Real.sqrt (distSq elat elon slat slon)

/-- Boundary points are `(lon, lat)` pairs, in file order
(taiwan.txt: each line `lon lat`). -/
abbrev BPoint := ℚ × ℚ

/-- Condition `x > 0 and y > 0` of eews_analyzer.py:87 with
`x = boundary_lon - lon`, `y = boundary_lat - lat`. -/
def quadNE (lon lat : ℚ) (b : BPoint) : Prop := b.1 - lon > 0 ∧ b.2 - lat > 0

/-- Condition `x < 0 and y < 0` of eews_analyzer.py:89. -/
def quadSW (lon lat : ℚ) (b : BPoint) : Prop := b.1 - lon < 0 ∧ b.2 - lat < 0

/-- Condition `x > 0 and y < 0` of eews_analyzer.py:91. -/
def quadSE (lon lat : ℚ) (b : BPoint) : Prop := b.1 - lon > 0 ∧ b.2 - lat < 0

/-- Condition `x < 0 and y > 0` of eews_analyzer.py:93. -/
def quadNW (lon lat : ℚ) (b : BPoint) : Prop := b.1 - lon < 0 ∧ b.2 - lat > 0

/-- Condition `dist < self.near_coast_line_dis` (eews_analyzer.py:95,
threshold 1.0 km).  Since `dist = sqrt(distSq)` and both sides are
nonnegative, `dist < 1.0` holds exactly when `distSq < 1`; the squared
form keeps the test decidable over `ℚ` (justified by `delaz_lt_one_iff`
below). -/
def nearPt (lon lat : ℚ) (b : BPoint) : Prop := distSq lat lon b.2 b.1 < 1

instance (lon lat : ℚ) (b : BPoint) : Decidable (quadNE lon lat b) :=
  inferInstanceAs (Decidable (_ ∧ _))

instance (lon lat : ℚ) (b : BPoint) : Decidable (quadSW lon lat b) :=
  inferInstanceAs (Decidable (_ ∧ _))

instance (lon lat : ℚ) (b : BPoint) : Decidable (quadSE lon lat b) :=
  inferInstanceAs (Decidable (_ ∧ _))

instance (lon lat : ℚ) (b : BPoint) : Decidable (quadNW lon lat b) :=
  inferInstanceAs (Decidable (_ ∧ _))

instance (lon lat : ℚ) (b : BPoint) : Decidable (nearPt lon lat b) :=
  inferInstanceAs (Decidable (_ < _))

/-- Generalized flag-accumulating loop over five arbitrary per-point
tests, the common shape of the `check_inland` and `check_seis_r` loops;
`inlandLoop` and `seisLoop` below are its instances at the source's
concrete tests (proved as `inlandLoop_eq_flagLoop` /
`seisLoop_eq_flagLoop`). -/
def flagLoop (q0 q1 q2 q3 q4 : BPoint → Bool) :
    Bool → Bool → Bool → Bool → Bool → List BPoint → Bool
  | _, _, _, _, _, [] => false
  | s0, s1, s2, s3, s4, b :: rest =>
    if ((s0 || q0 b) && (s1 || q1 b) && (s2 || q2 b) && (s3 || q3 b)) || (s4 || q4 b) then
      true
    else
      flagLoop q0 q1 q2 q3 q4 (s0 || q0 b) (s1 || q1 b) (s2 || q2 b) (s3 || q3 b)
        (s4 || q4 b) rest

/-- Loop body of `EEWSAnalyzer.check_inland` (eews_analyzer.py:78-103):
the five `sta` flags accumulate across boundary points and never reset;
after updating the flags at a point the loop stops with result 1 when
`sta[0]*sta[1]*sta[2]*sta[3] == 1 or sta[4] == 1`; an exhausted loop
leaves result 0. -/
def inlandLoop (lon lat : ℚ) : Bool → Bool → Bool → Bool → Bool → List BPoint → Bool
  | _, _, _, _, _, [] => false
  | s0, s1, s2, s3, s4, b :: rest =>
    if ((s0 || decide (quadNE lon lat b)) && (s1 || decide (quadSW lon lat b)) &&
        (s2 || decide (quadSE lon lat b)) && (s3 || decide (quadNW lon lat b)))
        || (s4 || decide (nearPt lon lat b)) then
      true
    else
      inlandLoop lon lat (s0 || decide (quadNE lon lat b)) (s1 || decide (quadSW lon lat b))
        (s2 || decide (quadSE lon lat b)) (s3 || decide (quadNW lon lat b))
        (s4 || decide (nearPt lon lat b)) rest

/-- Embeds `EEWSAnalyzer.check_inland` (eews_analyzer.py:58-105): returns
`None` when no boundary data was loaded (line 73-74), otherwise runs the
flag-accumulating loop over all boundary points with all flags starting
at 0 and returns `result == 1`. -/
def check_inland (bnd : List BPoint) (lon lat : ℚ) : Option Bool :=
  if bnd = [] then none
  else some (inlandLoop lon lat false false false false false bnd)

/-- Loop body of `ana_forplot.py::check_seis_r` (lines 25-52).  Although
the source appends five fresh zeros to `sta` on every iteration, it only
ever reads and writes `sta[0]..sta[4]`, so the five flags accumulate
across iterations exactly as in `inlandLoop`; the near test is
`delaz(...) < r`, encoded on the radicand as `distSq < r*r` (equivalent
for the nonnegative threshold `r = 1.0` used at every call site). -/
def seisLoop (elon elat r : ℚ) : Bool → Bool → Bool → Bool → Bool → List BPoint → Bool
  | _, _, _, _, _, [] => false
  | s0, s1, s2, s3, s4, b :: rest =>
    if ((s0 || decide (quadNE elon elat b)) && (s1 || decide (quadSW elon elat b)) &&
        (s2 || decide (quadSE elon elat b)) && (s3 || decide (quadNW elon elat b)))
        || (s4 || decide (distSq elat elon b.2 b.1 < r * r)) then
      true
    else
      seisLoop elon elat r (s0 || decide (quadNE elon elat b)) (s1 || decide (quadSW elon elat b))
        (s2 || decide (quadSE elon elat b)) (s3 || decide (quadNW elon elat b))
        (s4 || decide (distSq elat elon b.2 b.1 < r * r)) rest

/-- Embeds `ana_forplot.py::check_seis_r` (lines 25-52).  The boundary is
the zipped `(tlon, tlat)` list and `num_boundary` is its length (as at
the call sites, where `num_boundary = n` counts every line of
taiwan.txt); the loop `for i in range(1, num_boundary)` visits indices
`1 .. num_boundary-1`, i.e. every boundary point except the first. -/
def check_seis_r (tbnd : List BPoint) (elon elat r : ℚ) : Nat :=
  if seisLoop elon elat r false false false false false (tbnd.drop 1) then 1 else 0

/-- Quadrant-coverage condition of the heuristic, as a property of the
set of boundary points: every one of the four sign patterns occurs among
the offsets `boundary - point`. -/
def surrounded (bnd : List BPoint) (lon lat : ℚ) : Prop :=
  (∃ b ∈ bnd, quadNE lon lat b) ∧ (∃ b ∈ bnd, quadSW lon lat b) ∧
  (∃ b ∈ bnd, quadSE lon lat b) ∧ (∃ b ∈ bnd, quadNW lon lat b)

/-- Near-boundary condition as a property of the set of boundary points:
some boundary point lies within the 1.0 km threshold. -/
def nearBoundary (bnd : List BPoint) (lon lat : ℚ) : Prop :=
  ∃ b ∈ bnd, nearPt lon lat b

instance (bnd : List BPoint) (lon lat : ℚ) : Decidable (surrounded bnd lon lat) :=
  inferInstanceAs (Decidable (_ ∧ _ ∧ _ ∧ _))

instance (bnd : List BPoint) (lon lat : ℚ) : Decidable (nearBoundary bnd lon lat) :=
  inferInstanceAs (Decidable (∃ b ∈ bnd, nearPt lon lat b))

/-- Value of the digit string `cs` as a natural number. -/
def natOfDigits (cs : List Char) : Nat :=
  cs.foldl (fun n c => 10 * n + (c.toNat - 48)) 0

/-- Core of the model of Python `float()` on an unsigned token: an
optional run of digits, optionally followed by `.` and a run of digits,
with at least one digit overall (`float("1")`, `float("1.")`,
`float(".5")` succeed; `float(".")`, `float("")`, `float("abc")` raise).
Exponent, infinity and nan literals never occur in the data format and
are rejected. -/
def pyFloatCore (cs : List Char) : Option ℚ :=
  let ip := cs.takeWhile Char.isDigit
  let rest := cs.dropWhile Char.isDigit
  match rest with
  | [] => if ip.isEmpty then none else some (natOfDigits ip : ℚ)
  | '.' :: fp =>
    if fp.all Char.isDigit ∧ ¬(ip.isEmpty ∧ fp.isEmpty) then
      some ((natOfDigits ip : ℚ) + (natOfDigits fp : ℚ) / 10 ^ fp.length)
    else none
  | _ => none

/-- Model of Python `float(token)`: optional sign, then `pyFloatCore`;
returns `none` where `float()` would raise `ValueError`. -/
def pyFloat (s : String) : Option ℚ :=
  match s.toList with
  | '-' :: cs => (pyFloatCore cs).map Neg.neg
  | '+' :: cs => pyFloatCore cs
  | cs => pyFloatCore cs

/-- One parsed data row of `EEWSAnalyzer.load_data` (eews_analyzer.py:
120-143): catalog fields always present, the five EEW fields either all
populated or all the `np.nan` sentinel (here `none`), and the
`Is_Inland` column (`none` both when the boundary is empty and for the
unreachable empty-boundary `check_inland` call). -/
structure Row where
  type : String
  id : String
  originTime : String
  catLon : ℚ
  catLat : ℚ
  catMag : ℚ
  catDepth : ℚ
  eewLon : Option ℚ
  eewLat : Option ℚ
  eewMag : Option ℚ
  eewDepth : Option ℚ
  procTime : Option ℚ
  isInland : Option Bool
  deriving DecidableEq, Repr

/-- Embeds the per-line body of `EEWSAnalyzer.load_data`
(eews_analyzer.py:116-144) on an already-whitespace-split line: blank or
short lines (< 7 tokens) are silently skipped (`ok none`); any `float()`
failure on a consumed token raises (`error`), aborting the batch; the
EEW fields are populated exactly when `'Y' in parts[0]` and the line has
at least 12 tokens, else set to the missing sentinel.  The `Is_Inland`
value is attached here, matching the `df.apply` at lines 148-153 (only
performed when the boundary is nonempty; `check_inland` returns `none`
iff the boundary is empty, so a single field covers both cases). -/
def parseRow (bnd : List BPoint) (parts : List String) : Except String (Option Row) :=
  if parts.length < 7 then Except.ok none
  else
    match pyFloat (parts.getD 3 ""), pyFloat (parts.getD 4 ""),
        pyFloat (parts.getD 5 ""), pyFloat (parts.getD 6 "") with
    | some lon, some lat, some mag, some dep =>
      if (parts.getD 0 "").contains 'Y' ∧ 12 ≤ parts.length then
        match pyFloat (parts.getD 7 ""), pyFloat (parts.getD 8 ""),
            pyFloat (parts.getD 9 ""), pyFloat (parts.getD 10 ""),
            pyFloat (parts.getD 11 "") with
        | some elon, some elat, some emag, some edep, some pt =>
          Except.ok (some
            { type := parts.getD 0 "", id := parts.getD 1 "", originTime := parts.getD 2 "",
              catLon := lon, catLat := lat, catMag := mag, catDepth := dep,
              eewLon := some elon, eewLat := some elat, eewMag := some emag,
              eewDepth := some edep, procTime := some pt,
              isInland := check_inland bnd lon lat })
        | _, _, _, _, _ => Except.error "ValueError"
      else
        Except.ok (some
          { type := parts.getD 0 "", id := parts.getD 1 "", originTime := parts.getD 2 "",
            catLon := lon, catLat := lat, catMag := mag, catDepth := dep,
            eewLon := none, eewLat := none, eewMag := none,
            eewDepth := none, procTime := none,
            isInland := check_inland bnd lon lat })
    | _, _, _, _ => Except.error "ValueError"

/-- Sequential line loop of `load_data`: rows accumulate in input order,
skipped lines contribute nothing, and an uncaught `ValueError`
propagates out of the whole loop. -/
def loadRows (bnd : List BPoint) : List (List String) → Except String (List Row)
  | [] => Except.ok []
  | l :: ls =>
    match parseRow bnd l with
    | Except.error e => Except.error e
    | Except.ok none => loadRows bnd ls
    | Except.ok (some r) =>
      match loadRows bnd ls with
      | Except.error e => Except.error e
      | Except.ok rs => Except.ok (r :: rs)

/-- Embeds `EEWSAnalyzer.load_data` (eews_analyzer.py:107-155) on the
list of whitespace-split input lines: the header line is skipped
(`lines[1:]`), the rest feed the row loop. -/
def load_data (bnd : List BPoint) (lines : List (List String)) : Except String (List Row) :=
  loadRows bnd (lines.drop 1)

/-- One analyzed row: a `Row` of the detected subset enriched with the
three error columns of `EEWSAnalyzer.calculate_errors`
(eews_analyzer.py:185-207). -/
structure AnalyzedRow extends Row where
  epicenterErr : Option ℝ
  magErr : Option ℚ
  depthErr : Option ℚ

/-- Per-row error computation of `EEWSAnalyzer.calculate_errors`
(eews_analyzer.py:188-204): the epicenter error is the planar distance
when the EEW coordinates are defined and `np.nan` otherwise; magnitude
and depth errors are absolute differences, `nan` (here `none`)
propagating when the EEW value is the sentinel. -/
noncomputable def calcErrorsRow (r : Row) : AnalyzedRow :=
  { r with
    epicenterErr :=
      match r.eewLat, r.eewLon with
      | some elat, some elon => some (calculate_distance r.catLat r.catLon elat elon)
      | _, _ => none
    magErr := r.eewMag.map (fun m => |r.catMag - m|)
    depthErr := r.eewDepth.map (fun d => |r.catDepth - d|) }

/-- Embeds `EEWSAnalyzer.calculate_errors` (eews_analyzer.py:179-207):
filter to rows whose `Type` contains `'Y'`, then add the three error
columns. -/
noncomputable def calculate_errors (rows : List Row) : List AnalyzedRow :=
  (rows.filter (fun r => r.type.contains 'Y')).map calcErrorsRow

/-- Processing-time bucket edges of ana_forplot.py:289-305: the six
output files `pro_time_05 .. pro_time_30` keyed by
`≤10, (10,15], (15,20], (20,25], (25,30], >30`. -/
def bucketIndex (t : ℚ) : Nat :=
  if t ≤ 10 then 0
  else if t ≤ 15 then 1
  else if t ≤ 20 then 2
  else if t ≤ 25 then 3
  else if t ≤ 30 then 4
  else 5

/-- Rows kept by `get_statistics` (eews_analyzer.py:214):
`dropna(subset=['Epicenter_Error_km'])`. -/
def definedRows (rows : List AnalyzedRow) : List AnalyzedRow :=
  rows.filter (fun r => r.epicenterErr.isSome)

/-- Arithmetic mean, as both pandas `Series.mean` and `numpy.mean`
compute it (division by the count; `ℚ` division by zero yields 0 for the
empty list, a case no claim relies on). -/
def mean (xs : List ℚ) : ℚ := (xs.sum) / (xs.length : ℚ)

/-- Radicand of pandas `Series.std()` with its default `ddof=1`
(used for every `.std()` call in `get_statistics`,
eews_analyzer.py:224-268): sum of squared deviations over `n - 1`. -/
def sampleVar (xs : List ℚ) : ℚ :=
  ((xs.map (fun x => (x - mean xs) ^ 2)).sum) / ((xs.length : ℚ) - 1)

/-- Pandas `Series.std()` (default `ddof=1`), the reduction behind every
`*_std*` entry of `get_statistics`. -/
noncomputable def pandasStd (xs : List ℚ) : ℝ := Real.sqrt (sampleVar xs)

/-- Radicand of `numpy.std` (default `ddof=0`): sum of squared
deviations over `n`; this is the population variance the spec names. -/
def popVar (xs : List ℚ) : ℚ :=
  ((xs.map (fun x => (x - mean xs) ^ 2)).sum) / (xs.length : ℚ)

/-- Population standard deviation `sqrt(mean((x - mean x)²))` (divisor
`N`), as the spec prescribes for `get_statistics` and as `numpy.std`
computes it in ana_forplot.py:437-438. -/
noncomputable def popStd (xs : List ℚ) : ℝ := Real.sqrt (popVar xs)

/-- Magnitude-error values entering the statistics: the defined
(non-`nan`) `Magnitude_Error` entries of the rows surviving the
`Epicenter_Error_km` dropna. -/
def magErrValues (rows : List AnalyzedRow) : List ℚ :=
  (definedRows rows).filterMap (fun r => r.magErr)

/-- The `'magnitude_error_std'` entry of `get_statistics`
(eews_analyzer.py:231): pandas `.std()` over the magnitude-error
column. -/
noncomputable def magnitude_error_std (rows : List AnalyzedRow) : ℝ :=
  pandasStd (magErrValues rows)

/-- Population standard deviation of the same magnitude-error column,
for comparison with the spec's prescription. -/
noncomputable def magnitude_error_pop_std (rows : List AnalyzedRow) : ℝ :=
  popStd (magErrValues rows)

/-- The `'detection_rate'` entry of `get_statistics`
(eews_analyzer.py:220): `len(df) / len(self.df) * 100`, where `df` is
the analyzed subset after the dropna and `self.df` holds every record.
The division carries no guard in the source; on an empty record set
Python raises `ZeroDivisionError`, modelled as `Except.error`. -/
def detection_rate (allRows : List Row) (analyzed : List AnalyzedRow) : Except String ℚ :=
  if allRows.length = 0 then Except.error "ZeroDivisionError"
  else Except.ok (((definedRows analyzed).length : ℚ) / (allRows.length : ℚ) * 100)

/-- Consecutive edges of a polyline. -/
def edges (bnd : List BPoint) : List (BPoint × BPoint) := bnd.zip bnd.tail

/-- Even-odd rule crossing test: does the horizontal ray from `p`
towards increasing longitude cross the open edge `e`?  (Standard
point-in-polygon crossing test; a horizontal edge has equal endpoint
latitudes, fails the first conjunct, and the then-irrelevant `ℚ`
division by zero in the second conjunct is harmless.) -/
def crossesRay (p : BPoint) (e : BPoint × BPoint) : Bool :=
  (decide ((e.1.2 > p.2) ≠ (e.2.2 > p.2))) &&
  (decide (p.1 < e.1.1 + (e.2.1 - e.1.1) * (p.2 - e.1.2) / (e.2.2 - e.1.2)))

/-- Formalization of the spec's "point strictly inside the ring": the
even-odd (ray-crossing) point-in-polygon rule — the horizontal ray from
the point crosses an odd number of ring edges.  For points off the
boundary this is the standard strict-interior test the spec's §9
mentions as the rigorous alternative. -/
def strictlyInside (bnd : List BPoint) (p : BPoint) : Prop :=
  ((edges bnd).countP (crossesRay p)) % 2 = 1

/-- Formalization of the spec's "closed ring": at least three points and
the polyline returns to its starting point. -/
def isClosedRing (bnd : List BPoint) : Prop :=
  3 ≤ bnd.length ∧ bnd.head? = bnd.getLast?

/-- The point lies farther than the 1.0 km near-boundary threshold from
every boundary point. -/
def farFromBoundary (bnd : List BPoint) (lon lat : ℚ) : Prop :=
  ∀ b ∈ bnd, ¬ nearPt lon lat b

/-- The point lies outside the boundary's bounding box on at least one
axis (strictly beyond every boundary point on that axis). -/
def outsideBBoxAxis (bnd : List BPoint) (lon lat : ℚ) : Prop :=
  (∀ b ∈ bnd, lon < b.1) ∨ (∀ b ∈ bnd, b.1 < lon) ∨
  (∀ b ∈ bnd, lat < b.2) ∨ (∀ b ∈ bnd, b.2 < lat)

instance (bnd : List BPoint) (p : BPoint) : Decidable (strictlyInside bnd p) :=
  inferInstanceAs (Decidable (_ = _))

instance (bnd : List BPoint) : Decidable (isClosedRing bnd) :=
  inferInstanceAs (Decidable (_ ∧ _))

instance (bnd : List BPoint) (lon lat : ℚ) : Decidable (farFromBoundary bnd lon lat) :=
  inferInstanceAs (Decidable (∀ b ∈ bnd, ¬ nearPt lon lat b))

instance (bnd : List BPoint) (lon lat : ℚ) : Decidable (outsideBBoxAxis bnd lon lat) :=
  inferInstanceAs (Decidable (_ ∨ _ ∨ _ ∨ _))

/-- A closed diamond-shaped ring (vertices on the axes through the
origin), used as concrete boundary data. -/
def diamond : List BPoint := [(1, 0), (0, 1), (-1, 0), (0, -1), (1, 0)]

/-- Concrete four-point boundary with one point in each quadrant around
`(121, 23)`. -/
def c6bnd : List BPoint := [(122, 24), (120, 22), (122, 22), (120, 24)]

/-- The same boundary points in reversed order. -/
def c6bnd' : List BPoint := [(120, 24), (122, 22), (120, 22), (122, 24)]

/-- The §8 scenario record: catalog `(lon=121, lat=23, mag=5.5,
depth=10)`, alert `(lon=121.1, lat=23.05, mag=5.3, depth=12,
proc_time=8.0)`, type code starting with `Y`. -/
def scenarioRow : Row :=
  { type := "Y1", id := "001", originTime := "2025-01-01-00:00", catLon := 121, catLat := 23,
    catMag := 5.5, catDepth := 10, eewLon := some 121.1, eewLat := some 23.05,
    eewMag := some 5.3, eewDepth := some 12, procTime := some 8, isInland := none }

/-- Detected record whose alert magnitude matches the catalog magnitude
(magnitude error 0). -/
def c1row1 : Row :=
  { type := "Y1", id := "001", originTime := "t", catLon := 121, catLat := 23,
    catMag := 5, catDepth := 10, eewLon := some 121, eewLat := some 23,
    eewMag := some 5, eewDepth := some 10, procTime := some 8, isInland := none }

/-- Detected record whose alert magnitude is off by 2. -/
def c1row2 : Row :=
  { type := "Y2", id := "002", originTime := "t", catLon := 121, catLat := 23,
    catMag := 5, catDepth := 10, eewLon := some 121, eewLat := some 23,
    eewMag := some 3, eewDepth := some 10, procTime := some 9, isInland := none }

/-- Two-record analyzed collection whose magnitude errors are 0 and 2. -/
noncomputable def c1rows : List AnalyzedRow := calculate_errors [c1row1, c1row2]

/-- The magnitude-error values of `c1rows`. -/
def c1xs : List ℚ := [0, 2]

/-- Input lines whose third data row carries an unparseable magnitude
token (`"bad"`): header, one well-formed line, one malformed line. -/
def c3lines : List (List String) :=
  [["Type", "ID", "OT", "Lon", "Lat", "Mag", "Dep"],
   ["N1", "001", "t", "121.0", "23.0", "5.5", "10.0"],
   ["N2", "002", "t", "121.0", "23.0", "bad", "10.0"]]

/-- The malformed line of `c3lines`. -/
def c3badline : List String := ["N2", "002", "t", "121.0", "23.0", "bad", "10.0"]

/-- A 12-token line whose first token `"YL"` contains `'Y'` but whose
second character is `'L'`, not `'Y'`. -/
def c4line : List String :=
  ["YL", "001", "t", "121.0", "23.0", "5.5", "10.0", "121.1", "23.05", "5.3", "12.0", "8.0"]

/-- The row the parser produces from `c4line`: all five alert fields
populated. -/
def c4row : Row :=
  { type := "YL", id := "001", originTime := "t", catLon := 121, catLat := 23,
    catMag := 11/2, catDepth := 10, eewLon := some (1211/10), eewLat := some (461/20),
    eewMag := some (53/10), eewDepth := some 12, procTime := some 8, isInland := none }

/-- Header plus one well-formed missed-event line. -/
def c9lines : List (List String) :=
  [["Type", "ID", "OT", "Lon", "Lat", "Mag", "Dep"],
   ["N1", "001", "t", "121.0", "23.0", "5.5", "10.0"]]

/-- The row the parser produces from `c9lines` with an empty boundary:
alert fields and inland classification all unknown. -/
def c9row : Row :=
  { type := "N1", id := "001", originTime := "t", catLon := 121, catLat := 23,
    catMag := 11/2, catDepth := 10, eewLon := none, eewLat := none,
    eewMag := none, eewDepth := none, procTime := none, isInland := none }

/-- Justification for encoding the source's `dist < 1.0` near-boundary
test (eews_analyzer.py:95) on the radicand: the real distance is below
1 km exactly when its square is. -/
theorem delaz_lt_one_iff (elat elon slat slon : ℚ) :
    delaz elat elon slat slon < 1 ↔ nearPt elon elat (slon, slat) := by
  unfold delaz nearPt
  rw [Real.sqrt_lt' one_pos]
  norm_num
  exact_mod_cast Iff.rfl

/-- Characterization of the generalized flag-accumulating loop: starting
from given flags, it returns 1 exactly when the point list is nonempty
and either every one of the first four flags ends up set (from its
initial value or some point passing that test) or the fifth flag
fires. -/
theorem flagLoop_true_iff (q0 q1 q2 q3 q4 : BPoint → Bool) (s0 s1 s2 s3 s4 : Bool)
    (bnd : List BPoint) :
    flagLoop q0 q1 q2 q3 q4 s0 s1 s2 s3 s4 bnd = true ↔
      bnd ≠ [] ∧
      (((s0 = true ∨ ∃ b ∈ bnd, q0 b = true) ∧
        (s1 = true ∨ ∃ b ∈ bnd, q1 b = true) ∧
        (s2 = true ∨ ∃ b ∈ bnd, q2 b = true) ∧
        (s3 = true ∨ ∃ b ∈ bnd, q3 b = true)) ∨
       (s4 = true ∨ ∃ b ∈ bnd, q4 b = true)) := by
  induction bnd generalizing s0 s1 s2 s3 s4 with
  | nil => simp [flagLoop]
  | cons b rest ih =>
    simp only [flagLoop]
    split
    · rename_i h
      simp only [Bool.or_eq_true, Bool.and_eq_true] at h
      simp only [List.exists_mem_cons_iff, ne_eq, List.cons_ne_nil, not_false_iff,
        true_and, true_iff]
      tauto
    · rename_i h
      simp only [Bool.or_eq_true, Bool.and_eq_true] at h
      rw [ih]
      by_cases hr : rest = []
      · subst hr
        simp only [Bool.or_eq_true, List.exists_mem_cons_iff, List.not_mem_nil, false_and,
          exists_false, or_false, ne_eq, not_true_eq_false, List.cons_ne_nil, not_false_iff,
          true_and, false_iff, iff_false]
        simp only [or_assoc, and_assoc] at h ⊢
        exact h
      · simp only [Bool.or_eq_true, List.exists_mem_cons_iff, ne_eq, hr, not_false_iff,
          true_and, List.cons_ne_nil]
        simp only [or_assoc, and_assoc]

/-- The `check_inland` loop is the generalized loop at the four quadrant
tests and the 1.0 km near test. -/
theorem inlandLoop_eq_flagLoop (lon lat : ℚ) (s0 s1 s2 s3 s4 : Bool) (bnd : List BPoint) :
    inlandLoop lon lat s0 s1 s2 s3 s4 bnd =
      flagLoop (fun b => decide (quadNE lon lat b)) (fun b => decide (quadSW lon lat b))
        (fun b => decide (quadSE lon lat b)) (fun b => decide (quadNW lon lat b))
        (fun b => decide (nearPt lon lat b)) s0 s1 s2 s3 s4 bnd := by
  induction bnd generalizing s0 s1 s2 s3 s4 with
  | nil => rfl
  | cons b rest ih =>
    simp only [inlandLoop, flagLoop]
    split
    · rfl
    · exact ih _ _ _ _ _

/-- Characterization of the `check_inland` loop. -/
theorem inlandLoop_true_iff (lon lat : ℚ) (s0 s1 s2 s3 s4 : Bool) (bnd : List BPoint) :
    inlandLoop lon lat s0 s1 s2 s3 s4 bnd = true ↔
      bnd ≠ [] ∧
      (((s0 = true ∨ ∃ b ∈ bnd, quadNE lon lat b) ∧
        (s1 = true ∨ ∃ b ∈ bnd, quadSW lon lat b) ∧
        (s2 = true ∨ ∃ b ∈ bnd, quadSE lon lat b) ∧
        (s3 = true ∨ ∃ b ∈ bnd, quadNW lon lat b)) ∨
       (s4 = true ∨ ∃ b ∈ bnd, nearPt lon lat b)) := by
  rw [inlandLoop_eq_flagLoop, flagLoop_true_iff]
  simp only [decide_eq_true_eq]

/-- The classifier's answer on a nonempty boundary, as a function of the
set of boundary points. -/
theorem check_inland_eq_some (bnd : List BPoint) (lon lat : ℚ) (h : bnd ≠ []) :
    check_inland bnd lon lat =
      some (decide (surrounded bnd lon lat ∨ nearBoundary bnd lon lat)) := by
  unfold check_inland
  rw [if_neg h]
  have hiff : inlandLoop lon lat false false false false false bnd = true ↔
      surrounded bnd lon lat ∨ nearBoundary bnd lon lat := by
    rw [inlandLoop_true_iff]
    simp only [Bool.false_eq_true, false_or, ne_eq, h, not_false_iff, true_and]
    rfl
  rcases Bool.eq_false_or_eq_true (inlandLoop lon lat false false false false false bnd)
    with hb | hb
  · rw [hb]
    symm
    exact congrArg some (decide_eq_true (hiff.mp hb))
  · rw [hb]
    symm
    exact congrArg some (decide_eq_false fun hp => Bool.false_ne_true (hb.symm.trans (hiff.mpr hp)))

/-- C6: for every point and nonempty boundary, the classification is
invariant under permuting the boundary point sequence, and the returned
boolean is exactly "all four quadrant sign patterns occur among the
boundary-point offsets, or some boundary point is within the 1.0 km
threshold" — a condition on the set of boundary points only. -/
theorem C6_perm_invariant (bnd bnd' : List BPoint) (lon lat : ℚ)
    (hne : bnd ≠ []) (hperm : bnd.Perm bnd') :
    check_inland bnd lon lat = check_inland bnd' lon lat ∧
    (check_inland bnd lon lat = some true ↔
      surrounded bnd lon lat ∨ nearBoundary bnd lon lat) := by
  have hne' : bnd' ≠ [] := by
    intro hnil
    exact hne (List.Perm.eq_nil (hnil ▸ hperm))
  have hsur : surrounded bnd lon lat ↔ surrounded bnd' lon lat := by
    unfold surrounded
    simp only [hperm.mem_iff]
  have hnear : nearBoundary bnd lon lat ↔ nearBoundary bnd' lon lat := by
    unfold nearBoundary
    simp only [hperm.mem_iff]
  refine ⟨?_, ?_⟩
  · rw [check_inland_eq_some bnd lon lat hne, check_inland_eq_some bnd' lon lat hne']
    exact congrArg some (decide_eq_decide.mpr (or_congr hsur hnear))
  · rw [check_inland_eq_some bnd lon lat hne]
    simp

/-- Witness for `C6_perm_invariant` at a concrete boundary (one point in
each quadrant around `(121, 23)`) and its reversal. -/
theorem C6_perm_invariant_witness :
    c6bnd ≠ [] ∧ c6bnd.Perm c6bnd' ∧
    (check_inland c6bnd 121 23 = check_inland c6bnd' 121 23 ∧
     (check_inland c6bnd 121 23 = some true ↔
       surrounded c6bnd 121 23 ∨ nearBoundary c6bnd 121 23)) :=
  ⟨by decide, by decide, C6_perm_invariant c6bnd c6bnd' 121 23 (by decide) (by decide)⟩

/-- C10: the planar distance is symmetric under swapping the two points,
with the lat/lon argument order inside each point held fixed; this holds
for `EEWSAnalyzer.calculate_distance` and for `ana_forplot.delaz`
alike. -/
theorem C10_distance_symm :
    (∀ lat1 lon1 lat2 lon2 : ℚ,
        calculate_distance lat1 lon1 lat2 lon2 = calculate_distance lat2 lon2 lat1 lon1) ∧
    (∀ elat elon slat slon : ℚ,
        delaz elat elon slat slon = delaz slat slon elat elon) := by
  have h : ∀ lat1 lon1 lat2 lon2 : ℚ, distSq lat1 lon1 lat2 lon2 = distSq lat2 lon2 lat1 lon1 := by
    intro a b c d
    unfold distSq
    ring
  refine ⟨fun a b c d => ?_, fun a b c d => ?_⟩
  · unfold calculate_distance
    rw [h]
  · unfold delaz
    rw [h]

/-- C5 counterexample: the diamond `[(1,0),(0,1),(-1,0),(0,-1),(1,0)]`
is a closed ring and the point `(0.1, 0.2)` is strictly inside it, yet
`check_inland` classifies the point as offshore — no boundary vertex
lies in the point's north-east quadrant and all vertices are tens of
kilometres away, so neither heuristic condition ever fires.  The claim
"every point strictly inside a closed ring is classified inland" is
therefore false. -/
theorem C5_counterexample :
    isClosedRing diamond ∧ strictlyInside diamond (1/10, 2/10) ∧
    check_inland diamond (1/10) (2/10) = some false := by
  refine ⟨by decide, by with_unfolding_all decide, by with_unfolding_all decide⟩

/-- C5 (amended): the far-outside half of the claim holds — for every
point lying strictly outside the boundary's bounding box on at least one
axis and farther than the 1.0 km threshold from every boundary point,
`check_inland` never classifies the point as inland.  (The
strictly-inside half fails, see the counterexample.) -/
theorem C5_amended (bnd : List BPoint) (lon lat : ℚ)
    (hfar : farFromBoundary bnd lon lat) (hax : outsideBBoxAxis bnd lon lat) :
    check_inland bnd lon lat ≠ some true := by
  by_cases hb : bnd = []
  · subst hb
    simp [check_inland]
  · rw [check_inland_eq_some bnd lon lat hb]
    intro hsome
    have hp : surrounded bnd lon lat ∨ nearBoundary bnd lon lat :=
      of_decide_eq_true (Option.some.inj hsome)
    rcases hp with hs | hn
    · rcases hax with h1 | h1 | h1 | h1
      · obtain ⟨b, hm, hq⟩ := hs.2.1
        unfold quadSW at hq
        have := h1 b hm
        linarith [hq.1]
      · obtain ⟨b, hm, hq⟩ := hs.1
        unfold quadNE at hq
        have := h1 b hm
        linarith [hq.1]
      · obtain ⟨b, hm, hq⟩ := hs.2.1
        unfold quadSW at hq
        have := h1 b hm
        linarith [hq.2]
      · obtain ⟨b, hm, hq⟩ := hs.1
        unfold quadNE at hq
        have := h1 b hm
        linarith [hq.2]
    · obtain ⟨b, hm, hnear⟩ := hn
      exact hfar b hm hnear

/-- Witness for `C5_amended`: the point `(5, 0.2)` lies east of every
diamond vertex and far from all of them, and is classified offshore. -/
theorem C5_amended_witness :
    farFromBoundary diamond 5 (1/5) ∧ outsideBBoxAxis diamond 5 (1/5) ∧
    check_inland diamond 5 (1/5) ≠ some true :=
  ⟨by with_unfolding_all decide, by decide,
   C5_amended diamond 5 (1/5) (by with_unfolding_all decide) (by decide)⟩

/-- The `check_seis_r` loop is the generalized loop at the four quadrant
tests and the squared-threshold near test. -/
theorem seisLoop_eq_flagLoop (elon elat r : ℚ) (s0 s1 s2 s3 s4 : Bool) (bnd : List BPoint) :
    seisLoop elon elat r s0 s1 s2 s3 s4 bnd =
      flagLoop (fun b => decide (quadNE elon elat b)) (fun b => decide (quadSW elon elat b))
        (fun b => decide (quadSE elon elat b)) (fun b => decide (quadNW elon elat b))
        (fun b => decide (distSq elat elon b.2 b.1 < r * r)) s0 s1 s2 s3 s4 bnd := by
  induction bnd generalizing s0 s1 s2 s3 s4 with
  | nil => rfl
  | cons b rest ih =>
    simp only [seisLoop, flagLoop]
    split
    · rfl
    · exact ih _ _ _ _ _

/-- At the threshold `r = 1.0` used at every call site, the
`check_seis_r` loop coincides with the `check_inland` loop. -/
theorem seisLoop_one_eq_inlandLoop (elon elat : ℚ) (s0 s1 s2 s3 s4 : Bool)
    (bnd : List BPoint) :
    seisLoop elon elat 1 s0 s1 s2 s3 s4 bnd = inlandLoop elon elat s0 s1 s2 s3 s4 bnd := by
  rw [seisLoop_eq_flagLoop, inlandLoop_eq_flagLoop]
  have hq : (fun b : BPoint => decide (distSq elat elon b.2 b.1 < (1 : ℚ) * 1)) =
      (fun b : BPoint => decide (nearPt elon elat b)) := by
    funext b
    rw [decide_eq_decide]
    unfold nearPt
    norm_num
  rw [hq]

/-- C7 counterexample: on the single-point boundary `[(121, 23)]` and
the point `(121, 23)` itself (distance 0, well below the 1.0 km
threshold), `check_inland` answers inland but `check_seis_r` — whose
loop starts at index 1 and therefore never examines the first boundary
point — returns 0.  The two classifiers disagree, so the claimed
equivalence over the same boundary data is false. -/
theorem C7_counterexample :
    ¬ (check_inland [((121 : ℚ), (23 : ℚ))] 121 23 = some true ↔
       check_seis_r [((121 : ℚ), (23 : ℚ))] 121 23 1 = 1) := by
  with_unfolding_all decide

/-- C7 (amended): `check_seis_r` at threshold 1.0 agrees with
`check_inland` applied to the boundary with its first point removed:
for every boundary list and candidate point, `check_seis_r` returns 1
exactly when `check_inland` on the tail classifies the point inland. -/
theorem C7_amended (tbnd : List BPoint) (elon elat : ℚ) :
    check_seis_r tbnd elon elat 1 = 1 ↔ check_inland (tbnd.drop 1) elon elat = some true := by
  unfold check_seis_r check_inland
  rw [seisLoop_one_eq_inlandLoop]
  by_cases hd : tbnd.drop 1 = []
  · rw [hd, if_pos rfl]
    simp [inlandLoop]
  · rw [if_neg hd]
    rcases Bool.eq_false_or_eq_true
        (inlandLoop elon elat false false false false false (tbnd.drop 1)) with hb | hb
    · rw [hb]
      simp
    · rw [hb]
      simp

/-- C1 counterexample: on the analyzed collection `c1rows`, whose
magnitude-error column is `[0, 2]`, the standard deviation
`get_statistics` reports (pandas `.std()`, divisor `N-1`, giving
`sqrt 2`) differs from the population standard deviation (divisor `N`,
giving `1`).  The claim that `get_statistics` reports the population
standard deviation is therefore false. -/
theorem C1_counterexample : magnitude_error_std c1rows ≠ magnitude_error_pop_std c1rows := by
  have hv : magErrValues c1rows = [0, 2] := by with_unfolding_all decide
  have hs : sampleVar [(0 : ℚ), 2] = 2 := by with_unfolding_all decide
  have hp : popVar [(0 : ℚ), 2] = 1 := by with_unfolding_all decide
  unfold magnitude_error_std magnitude_error_pop_std pandasStd popStd
  rw [hv, hs, hp]
  push_cast
  rw [Real.sqrt_one]
  intro h
  have h2 := Real.sq_sqrt (by norm_num : (0 : ℝ) ≤ 2)
  rw [h] at h2
  norm_num at h2

/-- C1 (amended): the standard deviation `get_statistics` reports is the
sample standard deviation (divisor `N-1`): on any value list with at
least two entries it equals `sqrt (N/(N-1))` times the population
standard deviation. -/
theorem C1_sample_std (xs : List ℚ) (h : 2 ≤ xs.length) :
    pandasStd xs =
      Real.sqrt ((xs.length : ℝ) / ((xs.length : ℝ) - 1)) * popStd xs := by
  have hn2 : (2 : ℝ) ≤ (xs.length : ℝ) := by exact_mod_cast h
  have hpos : (0 : ℝ) < (xs.length : ℝ) - 1 := by linarith
  have hnz : (xs.length : ℝ) ≠ 0 := by linarith
  unfold pandasStd popStd
  rw [← Real.sqrt_mul (by positivity : (0 : ℝ) ≤ (xs.length : ℝ) / ((xs.length : ℝ) - 1))]
  congr 1
  unfold sampleVar popVar
  push_cast
  field_simp
  ring

/-- Witness for `C1_sample_std` at the two-element list `[0, 2]`. -/
theorem C1_sample_std_witness :
    2 ≤ c1xs.length ∧
    pandasStd c1xs =
      Real.sqrt ((c1xs.length : ℝ) / ((c1xs.length : ℝ) - 1)) * popStd c1xs :=
  ⟨by decide, C1_sample_std c1xs (by decide)⟩

/-- C2: on an empty record set (a file holding only the header line) the
detection-rate computation of `get_statistics` is not guarded — the
division `len(df) / len(self.df)` is attempted with a zero denominator
and raises `ZeroDivisionError` instead of returning a defined "no data"
result.  The spec prescribes an explicit guard; the code omits it. -/
theorem C2_zero_division :
    detection_rate [] (calculate_errors []) = Except.error "ZeroDivisionError" := rfl

/-- C3 counterexample: on `c3lines` — a header, one well-formed line and
one line whose magnitude token `"bad"` does not parse — `load_data`
aborts the whole batch with an uncaught `ValueError` instead of skipping
the malformed line and returning the one well-formed record.  The claim
that a parse failure skips only that line is therefore false. -/
theorem C3_counterexample : load_data [] c3lines = Except.error "ValueError" := by
  with_unfolding_all decide

/-- C3 (amended): `load_data` drops the header and feeds the row loop;
a line with fewer than 7 tokens (including a blank line) is skipped and
processing continues with the remaining lines, but a required numeric
field that fails to parse on a ≥7-token line aborts the whole batch with
an error. -/
theorem C3_amended :
    (∀ (bnd : List BPoint) (lines : List (List String)),
        load_data bnd lines = loadRows bnd (lines.drop 1)) ∧
    (∀ (bnd : List BPoint) (l : List String) (ls : List (List String)),
        l.length < 7 → loadRows bnd (l :: ls) = loadRows bnd ls) ∧
    (∀ (bnd : List BPoint) (l : List String) (ls : List (List String)),
        7 ≤ l.length →
        (pyFloat (l.getD 3 "") = none ∨ pyFloat (l.getD 4 "") = none ∨
         pyFloat (l.getD 5 "") = none ∨ pyFloat (l.getD 6 "") = none) →
        loadRows bnd (l :: ls) = Except.error "ValueError") := by
  refine ⟨fun _ _ => rfl, ?_, ?_⟩
  · intro bnd l ls h
    have hp : parseRow bnd l = Except.ok none := by
      unfold parseRow
      rw [if_pos h]
    simp only [loadRows, hp]
  · intro bnd l ls h7 hf
    have hlt : ¬ l.length < 7 := not_lt.mpr h7
    have hp : parseRow bnd l = Except.error "ValueError" := by
      unfold parseRow
      rw [if_neg hlt]
      rcases h3 : pyFloat (l.getD 3 "") with _ | v3 <;>
        rcases h4 : pyFloat (l.getD 4 "") with _ | v4 <;>
          rcases h5 : pyFloat (l.getD 5 "") with _ | v5 <;>
            rcases h6 : pyFloat (l.getD 6 "") with _ | v6 <;>
              simp_all
    simp only [loadRows, hp]

/-- Witness for `C3_amended`: a two-token line is skipped, and the
malformed line of `c3lines` aborts the batch. -/
theorem C3_amended_witness :
    load_data [] c3lines = loadRows [] (c3lines.drop 1) ∧
    loadRows [] [["a", "b"]] = loadRows [] [] ∧
    loadRows [] [c3badline] = Except.error "ValueError" :=
  ⟨C3_amended.1 [] c3lines, C3_amended.2.1 [] ["a", "b"] [] (by decide),
   C3_amended.2.2 [] c3badline [] (by decide)
     (Or.inr (Or.inr (Or.inl (by with_unfolding_all decide))))⟩

/-- C4 counterexample: the parser populates the alert fields from
`c4line`, whose first token `"YL"` has second character `'L'` — the code
tests `'Y' in parts[0]` (membership anywhere in the token), not the
second character, so the claimed "second character is `'Y'`" condition
is false while the fields are nevertheless populated. -/
theorem C4_counterexample :
    parseRow [] c4line = Except.ok (some c4row) ∧
    (c4line.getD 0 "").toList.getD 1 ' ' ≠ 'Y' ∧
    c4row.eewLon ≠ none := by
  refine ⟨by with_unfolding_all decide, by decide, by decide⟩

/-- C4 (amended): for every line the parser accepts, the five alert
fields are populated exactly when `'Y'` occurs anywhere in the first
token and the line has at least 12 tokens; in every other case all five
are the missing-value sentinel. -/
theorem C4_amended (bnd : List BPoint) (parts : List String) (r : Row)
    (h : parseRow bnd parts = Except.ok (some r)) :
    (r.eewLon ≠ none ∧ r.eewLat ≠ none ∧ r.eewMag ≠ none ∧
     r.eewDepth ≠ none ∧ r.procTime ≠ none) ↔
      ((parts.getD 0 "").contains 'Y' ∧ 12 ≤ parts.length) := by
  unfold parseRow at h
  split at h
  · exact absurd h (by simp)
  · split at h
    · rename_i lon lat mag dep h3 h4 h5 h6
      split at h
      · rename_i hY
        split at h
        · simp only [Except.ok.injEq, Option.some.injEq] at h
          subst h
          simpa using hY
        · exact absurd h (by simp)
      · rename_i hY
        simp only [Except.ok.injEq, Option.some.injEq] at h
        subst h
        simpa using hY
    · exact absurd h (by simp)

/-- Witness for `C4_amended` at `c4line`. -/
theorem C4_amended_witness :
    (c4row.eewLon ≠ none ∧ c4row.eewLat ≠ none ∧ c4row.eewMag ≠ none ∧
     c4row.eewDepth ≠ none ∧ c4row.procTime ≠ none) ↔
      ((c4line.getD 0 "").contains 'Y' ∧ 12 ≤ c4line.length) :=
  C4_amended [] c4line c4row (by with_unfolding_all decide)

/-- C8: the error calculator produces the planar epicenter distance and
the absolute magnitude and depth differences whenever the alert fields
are present, and on the §8 scenario record (catalog `(121, 23, 5.5, 10)`
against alert `(121.1, 23.05, 5.3, 12, 8.0)`) yields magnitude error
0.2, depth error 2.0 km, a strictly positive epicenter error, and a
processing time in the first (≤ 10 s) bucket. -/
theorem C8_error_calculator :
    (∀ (r : Row) (elat elon : ℚ), r.eewLat = some elat → r.eewLon = some elon →
        (calcErrorsRow r).epicenterErr =
          some (calculate_distance r.catLat r.catLon elat elon)) ∧
    (∀ (r : Row) (m : ℚ), r.eewMag = some m →
        (calcErrorsRow r).magErr = some |r.catMag - m|) ∧
    (∀ (r : Row) (d : ℚ), r.eewDepth = some d →
        (calcErrorsRow r).depthErr = some |r.catDepth - d|) ∧
    calculate_errors [scenarioRow] = [calcErrorsRow scenarioRow] ∧
    (calcErrorsRow scenarioRow).magErr = some 0.2 ∧
    (calcErrorsRow scenarioRow).depthErr = some 2 ∧
    (∃ e : ℝ, (calcErrorsRow scenarioRow).epicenterErr = some e ∧ 0 < e) ∧
    scenarioRow.procTime = some 8 ∧ bucketIndex 8 = 0 := by
  refine ⟨?_, ?_, ?_, by with_unfolding_all rfl, ?_, ?_, ?_, rfl, ?_⟩
  · intro r elat elon h1 h2
    unfold calcErrorsRow
    rw [h1, h2]
  · intro r m hm
    unfold calcErrorsRow
    rw [hm]
    rfl
  · intro r d hd
    unfold calcErrorsRow
    rw [hd]
    rfl
  · with_unfolding_all decide
  · with_unfolding_all decide
  · refine ⟨calculate_distance 23 121 23.05 121.1, rfl, ?_⟩
    unfold calculate_distance
    rw [Real.sqrt_pos]
    exact_mod_cast (by with_unfolding_all decide : (0 : ℚ) < distSq 23 121 23.05 121.1)
  · with_unfolding_all decide

/-- Witness for the implicational parts of `C8_error_calculator`,
instantiated at the scenario record. -/
theorem C8_error_calculator_witness :
    (calcErrorsRow scenarioRow).epicenterErr =
      some (calculate_distance scenarioRow.catLat scenarioRow.catLon 23.05 121.1) ∧
    (calcErrorsRow scenarioRow).magErr = some |scenarioRow.catMag - 5.3| ∧
    (calcErrorsRow scenarioRow).depthErr = some |scenarioRow.catDepth - 12| :=
  ⟨C8_error_calculator.1 scenarioRow 23.05 121.1 rfl rfl,
   C8_error_calculator.2.1 scenarioRow 5.3 rfl,
   C8_error_calculator.2.2.1 scenarioRow 12 rfl⟩

/-- The parser attaches `none` as inland classification to every row it
produces with an empty boundary. -/
theorem parseRow_empty_isInland (parts : List String) (r : Row)
    (h : parseRow [] parts = Except.ok (some r)) : r.isInland = none := by
  unfold parseRow at h
  split at h
  · exact absurd h (by simp)
  · split at h
    · split at h
      · split at h
        · simp only [Except.ok.injEq, Option.some.injEq] at h
          subst h
          rfl
        · exact absurd h (by simp)
      · simp only [Except.ok.injEq, Option.some.injEq] at h
        subst h
        rfl
    · exact absurd h (by simp)

/-- Every row the line loop produces with an empty boundary carries
`none` as inland classification. -/
theorem loadRows_empty_isInland (ls : List (List String)) (rows : List Row)
    (h : loadRows [] ls = Except.ok rows) : ∀ r ∈ rows, r.isInland = none := by
  induction ls generalizing rows with
  | nil =>
    simp only [loadRows, Except.ok.injEq] at h
    subst h
    intro r hr
    exact absurd hr (List.not_mem_nil r)
  | cons l ls ih =>
    unfold loadRows at h
    split at h
    · exact absurd h (by simp)
    · exact ih rows h
    · rename_i r0 heq0
      split at h
      · exact absurd h (by simp)
      · rename_i rs heq
        simp only [Except.ok.injEq] at h
        subst h
        intro r hr
        rcases List.mem_cons.mp hr with rfl | hmem
        · exact parseRow_empty_isInland l r heq0
        · exact ih rs heq r hmem

/-- C9: with no boundary polyline supplied, `check_inland` returns the
unknown value (`none`, neither `true` nor `false`) for every point, and
every record produced by `load_data` keeps `is_inland` unknown rather
than defaulting to inland or offshore. -/
theorem C9_unknown_inland :
    (∀ lon lat : ℚ, check_inland [] lon lat = none) ∧
    (∀ (lines : List (List String)) (rows : List Row),
        load_data [] lines = Except.ok rows → ∀ r ∈ rows, r.isInland = none) :=
  ⟨fun _ _ => rfl, fun lines rows h => loadRows_empty_isInland (lines.drop 1) rows h⟩

/-- Witness for `C9_unknown_inland` at a concrete point and the record
parsed from `c9lines`. -/
theorem C9_unknown_inland_witness :
    check_inland [] 121 23 = none ∧ c9row.isInland = none :=
  ⟨C9_unknown_inland.1 121 23,
   C9_unknown_inland.2 c9lines [c9row] (by with_unfolding_all decide) c9row (by simp)⟩

end EEW
